import Mathlib

/-!
# STX-Orbital conjunction screening: a shallow embedding

This file embeds, in Lean 4, the parts of the STX-Orbital screening service
(`src/stx_engine_v3_1.py` and `src/main.py`) that the verified claims are
about, and proves or refutes each claim against that embedding.

Modelling conventions:
* Python floats are modelled as rationals (`ℚ`); `round(x, n)` is modelled by
  `pyRound`, round-half-to-even as in Python 3.
* Transcendental library calls (`np.exp`, the `** (1/3)` cube root) are taken
  as function parameters of the embedded definitions; theorems that need
  facts about them state those facts as hypotheses, and concrete evaluations
  instantiate the cube root with `cbrtQ`, a rational bisection approximation.
* Datetimes are modelled as rational numbers of seconds; `timedelta(hours=h)`
  is `h * 3600`.
* Network fetches, SGP4 propagation and `EarthSatellite` construction are
  external effects; they enter the embedding as explicit oracle arguments
  (`fetchResult`, `dmin`, `satOk`) exactly at the call sites where the Python
  code invokes them.
-/

set_option maxRecDepth 8000
set_option allowUnsafeReducibility true

section STXDevelopment

attribute [local semireducible] Rat.mul Rat.add Rat.sub Rat.inv Rat.ofScientific

namespace STX

/-- Risk level returned by `STXConjunctionEngine.assess_risk_level`. -/
inductive RiskLevel
  | RED
  | YELLOW
  | GREEN
deriving DecidableEq, Repr

/-- Threat priority tier returned by `assess_risk_priority`. -/
inductive Priority
  | MANNED
  | HIGH_RISK
  | CATALOG
deriving DecidableEq, Repr

/-- An operational profile, as in the `OPERATIONAL_PROFILES` table of
`stx_engine_v3_1.py` (the `name` field is irrelevant to the claims). -/
structure OperationalProfile where
  yellow_threshold_km : ℚ
  red_threshold_km : ℚ
  yellow_pc : ℚ
  red_pc : ℚ
  maneuver_recommendation_threshold : ℚ
  default_covariance_km : ℚ
deriving DecidableEq, Repr

/-- `OPERATIONAL_PROFILES["ISS_CLASS"]`. -/
def ISS_CLASS : OperationalProfile :=
  { yellow_threshold_km := 25
    red_threshold_km := 10
    yellow_pc := 1 / 1000000
    red_pc := 1 / 100000
    maneuver_recommendation_threshold := 10
    default_covariance_km := 1 / 2 }

/-- `OPERATIONAL_PROFILES["COMMERCIAL"]`. -/
def COMMERCIAL : OperationalProfile :=
  { yellow_threshold_km := 5
    red_threshold_km := 1
    yellow_pc := 1 / 1000000
    red_pc := 1 / 100000
    maneuver_recommendation_threshold := 1
    default_covariance_km := 1 }

/-- `OPERATIONAL_PROFILES["CONSTELLATION"]`. -/
def CONSTELLATION : OperationalProfile :=
  { yellow_threshold_km := 20
    red_threshold_km := 5
    yellow_pc := 1 / 100000
    red_pc := 1 / 10000
    maneuver_recommendation_threshold := 2
    default_covariance_km := 2 }

/-- `STXConjunctionEngine.assess_risk_level(miss_km, pc, profile)`:

    if miss_km < profile["red_threshold_km"] or pc > profile["red_pc"]: "RED"
    elif miss_km < profile["yellow_threshold_km"] or pc > profile["yellow_pc"]: "YELLOW"
    else: "GREEN"
-/
def assess_risk_level (miss_km pc : ℚ) (profile : OperationalProfile) : RiskLevel :=
  if miss_km < profile.red_threshold_km ∨ pc > profile.red_pc then .RED
  else if miss_km < profile.yellow_threshold_km ∨ pc > profile.yellow_pc then .YELLOW
  else .GREEN

/-- The combined hard-body radius used by `calculate_pc`: `0.020` km. -/
def combined_radius_km : ℚ := 20 / 1000

/-- `STXConjunctionEngine.calculate_pc(miss_distance_km, combined_covariance_km)`.
`expF` stands for `np.exp`; the code computes
`np.exp(-0.5 * (miss/sigma)**2) * (R/sigma)**2` and clamps at 1. -/
def calculate_pc (expF : ℚ → ℚ) (miss_distance_km combined_covariance_km : ℚ) : ℚ :=
  if combined_covariance_km ≤ 0 then 0
  else if miss_distance_km < combined_radius_km then 1
  else
    min (expF (-(1 / 2) * (miss_distance_km / combined_covariance_km) ^ 2) *
          (combined_radius_km / combined_covariance_km) ^ 2) 1

/-- Python 3 `round` to an integer: round half to even. -/
def roundHalfEven (x : ℚ) : ℤ :=
  let f := ⌊x⌋
  let r := x - (f : ℚ)
  if r < 1 / 2 then f
  else if 1 / 2 < r then f + 1
  else if f % 2 = 0 then f else f + 1

/-- Python 3 `round(x, nd)` for `nd ≥ 0` decimal places (on exact rationals). -/
def pyRound (x : ℚ) (nd : ℕ) : ℚ :=
  (roundHalfEven (x * 10 ^ nd) : ℚ) / 10 ^ nd

/-- Burn direction labels used by `calculate_delta_v`. -/
inductive BurnType
  | RADIAL_PLUS
  | RADIAL_MINUS
  | IN_TRACK
deriving DecidableEq, Repr

/-- The dictionary returned by `calculate_delta_v`.  Times are rational
seconds (UTC epoch); the Python code formats them with `strftime`, which we
do not model. -/
structure Maneuver where
  delta_v_ms : ℚ
  burn_type : BurnType
  execution_time : ℚ
  window_start : ℚ
  window_end : ℚ
  post_maneuver_miss_km : ℚ
  fuel_cost_kg : ℚ
deriving DecidableEq, Repr

/-- `STXConjunctionEngine.calculate_delta_v(miss_km, radial_km, in_track_km,
cross_track_km, tca_time)`.  Note the returned `delta_v_ms` is
`round(delta_v_ms, 2)` while `fuel_cost_kg` is `round(delta_v_ms * 0.001, 4)`
computed from the *unrounded* local `delta_v_ms`. -/
def calculate_delta_v (miss_km radial_km in_track_km cross_track_km tca_time : ℚ) :
    Maneuver :=
  if |radial_km| < 1 then
    let target_separation : ℚ := max 5 10
    let delta_r_needed := target_separation - |radial_km|
    let delta_v_ms := |delta_r_needed| * (1 / 10) * 1000
    let burn_type := if radial_km < 0 then BurnType.RADIAL_PLUS else BurnType.RADIAL_MINUS
    let lead_time_hours : ℚ := 3 / 2
    let execution_time := tca_time - lead_time_hours * 3600
    { delta_v_ms := pyRound delta_v_ms 2
      burn_type := burn_type
      execution_time := execution_time
      window_start := execution_time - 30 * 60
      window_end := execution_time + 30 * 60
      post_maneuver_miss_km := pyRound (|radial_km| + delta_r_needed) 3
      fuel_cost_kg := pyRound (delta_v_ms * (1 / 1000)) 4 }
  else
    let delta_v_ms : ℚ := 50
    let burn_type := BurnType.IN_TRACK
    let lead_time_hours : ℚ := 1 / 2
    let execution_time := tca_time - lead_time_hours * 3600
    { delta_v_ms := pyRound delta_v_ms 2
      burn_type := burn_type
      execution_time := execution_time
      window_start := execution_time - 30 * 60
      window_end := execution_time + 30 * 60
      post_maneuver_miss_km := pyRound (miss_km * (3 / 2)) 3
      fuel_cost_kg := pyRound (delta_v_ms * (1 / 1000)) 4 }

/-! ## String primitives

Python-string operations are modelled on the character list `String.data`
(structural recursion, so that concrete runs evaluate inside the kernel).
-/

/-- The whitespace characters `str.strip()` removes. -/
def isPySpace (c : Char) : Bool :=
  c = ' ' || c = '\t' || c = '\n' || c = '\r' || c = '\x0b' || c = '\x0c'

/-- `str.strip()` on a character list. -/
def trimChars (cs : List Char) : List Char :=
  ((cs.dropWhile isPySpace).reverse.dropWhile isPySpace).reverse

/-- `s.strip()`. -/
def stripStr (s : String) : String := ⟨trimChars s.data⟩

/-- Python slicing `s[a:b]` (with clamping at the string end). -/
def sliceStr (s : String) (a b : ℕ) : String := ⟨(s.data.drop a).take (b - a)⟩

/-- `s.startswith(p)`. -/
def startsWithStr (p s : String) : Bool := p.data.isPrefixOf s.data

/-- `s.endswith(p)`. -/
def endsWithStr (p s : String) : Bool := p.data.reverse.isPrefixOf s.data.reverse

/-- `s.lower()` (ASCII, which is all the code compares). -/
def lowerStr (s : String) : String := ⟨s.data.map Char.toLower⟩

/-- Split at newline characters, keeping empty pieces. -/
def splitNlAux : List Char → List Char → List (List Char)
  | [], acc => [acc.reverse]
  | '\n' :: rest, acc => acc.reverse :: splitNlAux rest []
  | c :: rest, acc => splitNlAux rest (c :: acc)

/-- `s.splitlines()` (modelling only `\n` separators). -/
def splitLinesStr (s : String) : List String :=
  (splitNlAux s.data []).map (fun cs => ⟨cs⟩)

/-! ## TLE numeric field parsing (`CatalogService._parse_orbit_params`) -/

/-- Numeric value of a digit string (most significant first). -/
def natOfDigits (cs : List Char) : ℕ :=
  cs.foldl (fun a c => 10 * a + (c.toNat - 48)) 0

/-- Python `int(s)` on an (already stripped) string of digits.  (The
optional sign and underscore forms Python also accepts never occur in the
screened fields.) -/
def toNatStr (s : String) : Option ℕ :=
  if !s.data.isEmpty && s.data.all Char.isDigit then some (natOfDigits s.data)
  else none

/-- Python `int(s)` on a form field: optional sign around digits, after
stripping. -/
def toIntStr (s : String) : Option ℤ :=
  match trimChars s.data with
  | '-' :: cs => if !cs.isEmpty && cs.all Char.isDigit then some (-(natOfDigits cs : ℤ)) else none
  | '+' :: cs => if !cs.isEmpty && cs.all Char.isDigit then some (natOfDigits cs : ℤ) else none
  | cs => if !cs.isEmpty && cs.all Char.isDigit then some (natOfDigits cs : ℤ) else none

/-- Python `float` on an unsigned decimal string given as characters:
digits, optionally followed by a point and further digits (`"12"`, `"12.5"`,
`"12."`, `".5"`).  Returns `none` on anything else, as `float(...)` raises.
Exponent forms do not occur in TLE fields and are not modelled. -/
def parseUnsigned (cs : List Char) : Option ℚ :=
  let ip := cs.takeWhile Char.isDigit
  let rest := cs.dropWhile Char.isDigit
  match rest with
  | [] => if ip.isEmpty then none else some ((natOfDigits ip : ℕ) : ℚ)
  | '.' :: fp =>
    if fp.all Char.isDigit && !(ip.isEmpty && fp.isEmpty) then
      some (((natOfDigits ip : ℕ) : ℚ) + ((natOfDigits fp : ℕ) : ℚ) / 10 ^ fp.length)
    else none
  | _ => none

/-- Python `float(s)` for an (already stripped) decimal string with an
optional leading sign. -/
def parseFloatQ (s : String) : Option ℚ :=
  match s.data with
  | '-' :: cs => (parseUnsigned cs).map (fun q => -q)
  | '+' :: cs => parseUnsigned cs
  | cs => parseUnsigned cs

/-- The `np.pi` double constant used by the engine. -/
def np_pi : ℚ := 3141592653589793 / 1000000000000000

/-- Earth gravitational parameter `mu = 398600.4418` km³/s². -/
def mu_earth : ℚ := 3986004418 / 10000

/-- `CatalogService._parse_orbit_params(line1, line2)`.
`cbrtF` stands for the floating-point `x ** (1.0/3.0)` cube root (applied
only to a positive argument).  Any parse failure — and the
`ZeroDivisionError` when the mean motion is zero — takes the `except`
branch, returning the fallback `(0.0, 50000.0, 0.0, 0.0)`. -/
def parse_orbit_params (cbrtF : ℚ → ℚ) (line1 line2 : String) : ℚ × ℚ × ℚ × ℚ :=
  let attempt : Option (ℚ × ℚ × ℚ × ℚ) := do
    let mean_motion ← parseFloatQ (stripStr (sliceStr line2 52 63))
    let ecc ← parseUnsigned ('0' :: '.' :: (stripStr (sliceStr line2 26 33)).data)
    let inc_deg ← parseFloatQ (stripStr (sliceStr line2 8 16))
    let raan_deg ← parseFloatQ (stripStr (sliceStr line2 17 25))
    let n_rad_per_sec := mean_motion * 2 * np_pi / 86400
    if n_rad_per_sec = 0 then none
    else
      let a := cbrtF (mu_earth / n_rad_per_sec ^ 2)
      some (a * (1 - ecc) - 6378, a * (1 + ecc) - 6378, inc_deg, raan_deg)
  attempt.getD (0, 50000, 0, 0)

/-- Bisection refinement for `cbrtQ`, keeping the invariant
`lo ^ 3 ≤ x < hi ^ 3`. -/
def cbrtAux (x : ℚ) : ℕ → ℚ → ℚ → ℚ
  | 0, lo, _ => lo
  | k + 1, lo, hi =>
    let mid := (lo + hi) / 2
    if mid ^ 3 ≤ x then cbrtAux x k mid hi else cbrtAux x k lo mid

/-- A concrete rational cube-root approximation (64 bisection steps),
used to instantiate `cbrtF` in concrete evaluations. -/
def cbrtQ (x : ℚ) : ℚ := if x ≤ 0 then 0 else cbrtAux x 64 0 (max 1 x)

/-! ## Catalog service state and refresh (`CatalogService`) -/

/-- One value of the `CatalogService.tles` dict. -/
structure CatEntry where
  name : String
  l1 : String
  l2 : String
  perigee_km : ℚ
  apogee_km : ℚ
  inc_deg : ℚ
  raan_deg : ℚ
deriving DecidableEq, Repr

/-- The mutable state of a `CatalogService`: the `tles` dict (as an
association list), the key set of the `sats` dict (the `EarthSatellite`
values themselves are opaque), and `last_refresh`. -/
structure CatalogState where
  tles : List (ℕ × CatEntry)
  sats : List ℕ
  last_refresh : ℚ
deriving DecidableEq, Repr

/-- Dict assignment `d[k] = v` on an association list. -/
def upsert {α : Type} (k : ℕ) (v : α) : List (ℕ × α) → List (ℕ × α)
  | [] => [(k, v)]
  | (k', v') :: rest => if k = k' then (k, v) :: rest else (k', v') :: upsert k v rest

/-- Key-set insertion for the `sats` dict (membership is all that matters). -/
def insertKey (k : ℕ) (l : List ℕ) : List ℕ := if k ∈ l then l else l ++ [k]

/-- Dict lookup `d.get(k)` on an association list. -/
def lookupTLE {α : Type} (tles : List (ℕ × α)) (k : ℕ) : Option α :=
  (tles.find? (fun p => p.1 == k)).map Prod.snd

/-- `int(l2[2:7].strip())` — NORAD catalog number extraction. -/
def parseNorad (l2 : String) : Option ℕ :=
  toNatStr (stripStr (sliceStr l2 2 7))

/-- One iteration of the catalog rebuild loop in `refresh_if_needed`
(`satOk l1 l2` models whether `EarthSatellite(l1, l2, name, ts)` succeeds). -/
def catalogStep (cbrtF : ℚ → ℚ) (satOk : String → String → Bool)
    (acc : List (ℕ × CatEntry) × List ℕ) (name l1 l2 : String) :
    List (ℕ × CatEntry) × List ℕ :=
  if !(startsWithStr "1 " l1 && startsWithStr "2 " l2) then acc
  else
    match parseNorad l2 with
    | none => acc
    | some norad =>
      let nm := if name = "" then "UNKNOWN" else name
      let p := parse_orbit_params cbrtF l1 l2
      let tles := upsert norad
        { name := nm, l1 := l1, l2 := l2
          perigee_km := p.1, apogee_km := p.2.1
          inc_deg := p.2.2.1, raan_deg := p.2.2.2 } acc.1
      if satOk l1 l2 then (tles, insertKey norad acc.2) else (tles, acc.2)

/-- The `for i in range(0, len(lines), 3)` rebuild loop: consumes
`(name, l1, l2)` triples, stopping when fewer than three lines remain. -/
def buildCatalog (cbrtF : ℚ → ℚ) (satOk : String → String → Bool) :
    List String → List (ℕ × CatEntry) × List ℕ → List (ℕ × CatEntry) × List ℕ
  | name :: l1 :: l2 :: rest, acc =>
    buildCatalog cbrtF satOk rest (catalogStep cbrtF satOk acc name l1 l2)
  | _, acc => acc

/-- `refresh_interval_sec` default: 3 hours. -/
def refresh_interval_sec : ℚ := 3 * 3600

/-- Strip all lines and drop blank ones (used both by the catalog refresh
and the upload parser). -/
def cleanLines (text : String) : List String :=
  ((splitLinesStr text).map stripStr).filter (fun l => l ≠ "")

/-- `CatalogService.refresh_if_needed(force)`.  `hasClient` models
`self.st_client is not None`; `fetchResult` is the outcome of the
`tle_latest` network call (`Except.error` models a raised exception, which
the code catches and logs, leaving the state untouched). -/
def refresh_if_needed (cbrtF : ℚ → ℚ) (satOk : String → String → Bool)
    (st : CatalogState) (hasClient : Bool) (now : ℚ) (force : Bool)
    (fetchResult : Except Unit String) : CatalogState :=
  if !hasClient then st
  else if !force && now - st.last_refresh < refresh_interval_sec && st.tles ≠ [] then st
  else
    match fetchResult with
    | .error _ => st
    | .ok result =>
      if result = "" then st
      else
        let built := buildCatalog cbrtF satOk (cleanLines result) ([], [])
        { tles := built.1, sats := built.2, last_refresh := now }

/-! ## Candidate pipeline (stage 1 and stage 2) -/

/-- `CatalogService.get_stage1_candidates(primary_tle, altitude_margin_km,
inc_margin_deg)`: altitude-shell overlap plus inclination window. -/
def get_stage1_candidates (cbrtF : ℚ → ℚ) (tles : List (ℕ × CatEntry))
    (primary_tle : String × String × String)
    (altitude_margin_km inc_margin_deg : ℚ) : List ℕ :=
  if tles = [] then []
  else
    (tles.filter (fun entry =>
      !(decide (entry.2.perigee_km >
        (parse_orbit_params cbrtF primary_tle.2.1 primary_tle.2.2).2.1 + altitude_margin_km)) &&
      !(decide (entry.2.apogee_km <
        (parse_orbit_params cbrtF primary_tle.2.1 primary_tle.2.2).1 - altitude_margin_km)) &&
      !(decide (|entry.2.inc_deg -
        (parse_orbit_params cbrtF primary_tle.2.1 primary_tle.2.2).2.2.1| > inc_margin_deg)))).map
      Prod.fst

/-- `CatalogService.coarse_screen(primary_tle, candidate_ids, days,
coarse_points, coarse_distance_km)`.  The SGP4 grid propagation is the
oracle `dmin norad`: the grid-minimum distance to the primary, or `none`
when propagation raises.  A candidate without a prebuilt satellite
(`self.sats.get(norad) is None`) is skipped. -/
def coarse_screen (sats : List ℕ) (dmin : ℕ → Option ℚ)
    (candidate_ids : List ℕ) (days coarse_points : ℕ)
    (coarse_distance_km : ℚ) : List ℕ :=
  if candidate_ids = [] then []
  else
    candidate_ids.filter (fun norad =>
      decide (norad ∈ sats) &&
        (match dmin norad with
         | none => false
         | some d => decide (d < coarse_distance_km)))

/-- One candidate record returned by
`get_catalog_candidates_for_primary` (`{"norad_id", "name", "l1", "l2"}`). -/
structure Candidate where
  norad_id : ℕ
  name : String
  l1 : String
  l2 : String
deriving DecidableEq, Repr

/-- `STXConjunctionEngine.get_catalog_candidates_for_primary(...)`.
`catalog = none` models `self.catalog is None` (no Space-Track client).
The function refreshes the catalog, runs stage 1 and stage 2, and resolves
records; the `primary_norad` argument is accepted and — exactly as in the
source — never used. -/
def get_catalog_candidates_for_primary (cbrtF : ℚ → ℚ)
    (satOk : String → String → Bool) (dmin : ℕ → Option ℚ)
    (catalog : Option CatalogState) (now : ℚ)
    (fetchResult : Except Unit String)
    (primary_tle : String × String × String) (primary_norad : Option ℕ)
    (days coarse_points : ℕ)
    (coarse_distance_km altitude_margin_km inc_margin_deg : ℚ) : List Candidate :=
  match catalog with
  | none => []
  | some st0 =>
    let st := refresh_if_needed cbrtF satOk st0 true now false fetchResult
    if st.tles = [] then []
    else
      let stage1_ids :=
        get_stage1_candidates cbrtF st.tles primary_tle altitude_margin_km inc_margin_deg
      if stage1_ids = [] then []
      else
        let stage2_ids :=
          coarse_screen st.sats dmin stage1_ids days coarse_points coarse_distance_km
        stage2_ids.filterMap (fun norad =>
          (lookupTLE st.tles norad).map (fun info =>
            { norad_id := norad, name := info.name, l1 := info.l1, l2 := info.l2 }))

/-! ## TLE file upload parsing (`perform_screening`, `main.py` lines 98-137) -/

/-- One parsed upload entry `(name, line1, line2, norad_id)`. -/
structure TLERec where
  name : String
  line1 : String
  line2 : String
  norad_id : ℕ
deriving DecidableEq, Repr

/-- `tle_list.append((name, line1, line2, norad_id))` guarded by the
`startswith` checks and the `int(...)` parse (whose failure is swallowed). -/
def tryTLE (name l1 l2 : String) : List TLERec :=
  if startsWithStr "1 " l1 && startsWithStr "2 " l2 then
    match parseNorad l2 with
    | some norad => [{ name := name, line1 := l1, line2 := l2, norad_id := norad }]
    | none => []
  else []

/-- The `while i < len(lines)` extraction loop of `perform_screening`:
a line starting `"1 "` is a line-1 with default name `"SATELLITE"`
(consuming two lines), otherwise the line is a name followed by line-1 and
line-2 (consuming three); the loop breaks when the needed lines are
missing. -/
def extractTLEs : List String → List TLERec
  | [] => []
  | l :: rest =>
    if startsWithStr "1 " l then
      match rest with
      | [] => []
      | l2 :: rest2 => tryTLE "SATELLITE" l l2 ++ extractTLEs rest2
    else
      match rest with
      | l1 :: l2 :: rest3 => tryTLE l l1 l2 ++ extractTLEs rest3
      | _ => []

/-- The TLE-file parsing phase of `perform_screening`: strip and drop blank
lines, reject short files, extract TLEs, reject an empty extraction.  The
two `raise ValueError` sites become `Except.error`. -/
def parseTLEFile (content : String) : Except String (List TLERec) :=
  let lines := cleanLines content
  if lines.length < 2 then .error "File too short"
  else
    let tle_list := extractTLEs lines
    if tle_list = [] then .error "No valid TLEs found"
    else .ok tle_list

/-! ## Job manager (`main.py`: JOBS, helpers, `run_screen_job`) -/

/-- Job status strings: `queued | running | success | all_clear | failed`. -/
inductive JobStatus
  | queued
  | running
  | success
  | all_clear
  | failed
deriving DecidableEq, Repr

/-- The `status` value of the payload `perform_screening` returns: either
`"all_clear"` or `"success"`. -/
inductive PayloadStatus
  | success
  | all_clear
deriving DecidableEq, Repr

/-- `response_data.get("status", "success")` as a job status. -/
def PayloadStatus.toJobStatus : PayloadStatus → JobStatus
  | .success => .success
  | .all_clear => .all_clear

/-- The screening result payload, reduced to the fields the job-lifecycle
claims depend on. -/
structure ScreenPayload where
  payload_status : PayloadStatus
deriving DecidableEq, Repr

/-- One entry of the `JOBS` dict. -/
structure Job where
  status : JobStatus
  result : Option ScreenPayload
  error : Option String
  created_at : ℚ
deriving DecidableEq, Repr

/-- `create_job()` (the UUID key is managed by the surrounding dict). -/
def create_job (now : ℚ) : Job :=
  { status := .queued, result := none, error := none, created_at := now }

/-- `set_job_running(job_id)` on the addressed job. -/
def set_job_running (j : Job) : Job := { j with status := .running }

/-- `set_job_result(job_id, status, result_dict)` on the addressed job. -/
def set_job_result (status : JobStatus) (result_dict : ScreenPayload) (j : Job) : Job :=
  { j with status := status, result := some result_dict }

/-- `set_job_failed(job_id, error_msg)` on the addressed job. -/
def set_job_failed (error_msg : String) (j : Job) : Job :=
  { j with status := .failed, error := some error_msg }

/-- The outcome of `perform_screening(content, ...)`: the TLE parsing phase
may raise; after it, the screening proper is the oracle `screenO` (it
returns an `"all_clear"` or `"success"` payload, never raising in a way
the claims depend on). -/
def perform_screening_outcome (screenO : List TLERec → ScreenPayload)
    (content : String) : Except String ScreenPayload :=
  match parseTLEFile content with
  | .error e => .error ("ValueError: " ++ e)
  | .ok tles => .ok (screenO tles)

/-- `run_screen_job(job_id, content, ...)`: transition the job to running,
run the screening, then set exactly one terminal status. -/
def run_screen_job (screenO : List TLERec → ScreenPayload) (content : String)
    (j : Job) : Job :=
  match perform_screening_outcome screenO content with
  | .ok r => set_job_result r.payload_status.toJobStatus r (set_job_running j)
  | .error e => set_job_failed e (set_job_running j)

/-- The per-job transitions the worker performs, in order. -/
inductive JobOp
  | opRunning
  | opResult (status : JobStatus) (result_dict : ScreenPayload)
  | opFailed (error_msg : String)
deriving DecidableEq, Repr

/-- Apply one helper call to the job. -/
def applyOp : JobOp → Job → Job
  | .opRunning, j => set_job_running j
  | .opResult st r, j => set_job_result st r j
  | .opFailed e, j => set_job_failed e j

/-- The sequence of job-map transitions `run_screen_job` performs:
`set_job_running`, then exactly one of `set_job_result` / `set_job_failed`. -/
def run_screen_job_ops (screenO : List TLERec → ScreenPayload)
    (content : String) : List JobOp :=
  match perform_screening_outcome screenO content with
  | .ok r => [.opRunning, .opResult r.payload_status.toJobStatus r]
  | .error e => [.opRunning, .opFailed e]

/-- The job states visited while the worker executes, starting from the
submitted job. -/
def run_screen_job_states (screenO : List TLERec → ScreenPayload)
    (content : String) (j : Job) : List Job :=
  (run_screen_job_ops screenO content).foldl
    (fun tr op => tr ++ [applyOp op (tr.getLastD j)]) [j]

/-- Progress order on statuses: `queued(0) → running(1) → terminal(2)`. -/
def statusRank : JobStatus → ℕ
  | .queued => 0
  | .running => 1
  | .success => 2
  | .all_clear => 2
  | .failed => 2

/-- A terminal job status. -/
def IsTerminal (s : JobStatus) : Prop :=
  s = .success ∨ s = .all_clear ∨ s = .failed

instance (s : JobStatus) : Decidable (IsTerminal s) := by
  unfold IsTerminal; infer_instance

/-! ## Job submission (`screen_fleet`, `main.py` lines 530-596) -/

/-- The uploaded file: its name and its decoded content
(`file.read().decode('utf-8', errors='ignore')`). -/
structure SubmitFile where
  filename : String
  content : String
deriving DecidableEq, Repr

/-- An HTTP submission request to `POST /screen`. -/
structure SubmitRequest where
  engine_loaded : Bool
  auth_header : Option String
  file : Option SubmitFile
  suppress_green_field : String
  catalog_limit_field : String
deriving DecidableEq, Repr

/-- `int(s)` on a form field (sign and surrounding whitespace allowed). -/
def parseIntPy (s : String) : Option ℤ := toIntStr s

/-- Outcome of `screen_fleet`: a 4xx JSON error, a 500 JSON error, or the
`{"status": "queued", "job_id": ...}` response after `create_job` and
spawning the worker thread on `(content, suppress_green, catalog_limit)`. -/
inductive SubmitOutcome
  | clientError (code : ℕ) (msg : String)
  | serverError (msg : String)
  | queued (job : Job) (content : String) (suppress_green : Bool) (catalog_limit : ℤ)
deriving DecidableEq, Repr

/-- `screen_fleet()` — the submission endpoint.  Checks, in source order:
engine import, bearer token, file presence, file name, file extension;
reads the config fields (an unparseable `catalog_limit` raises and is
caught by the outer handler as a 500); then strips the content, rejects an
empty upload, and otherwise creates a queued job.  The TLE content itself
is not parsed here. -/
def screen_fleet (now : ℚ) (req : SubmitRequest) : SubmitOutcome :=
  if !req.engine_loaded then
    .serverError "Engine module failed to load - check server logs"
  else if req.auth_header ≠ some "Bearer stx-authorized-user" then
    .clientError 401 "Unauthorized"
  else
    match req.file with
    | none => .clientError 400 "No file uploaded"
    | some f =>
      if f.filename = "" then .clientError 400 "No file selected"
      else if !(endsWithStr ".tle" (lowerStr f.filename) || endsWithStr ".txt" (lowerStr f.filename)) then
        .clientError 400 "Invalid file type"
      else
        let suppress_green := lowerStr req.suppress_green_field == "true"
        match parseIntPy req.catalog_limit_field with
        | none => .serverError "Job submission failed: invalid literal for int()"
        | some catalog_limit =>
          let content := stripStr f.content
          if content = "" then .clientError 400 "Uploaded file is empty"
          else .queued (create_job now) content suppress_green catalog_limit

/-! ## Threat list sorting and top-threat selection (`perform_screening`) -/

/-- `priority_order = {"MANNED": 0, "HIGH-RISK": 1, "CATALOG": 2}`. -/
def priority_rank : Priority → ℕ
  | .MANNED => 0
  | .HIGH_RISK => 1
  | .CATALOG => 2

/-- One threat row, reduced to the fields the ordering and top-threat
claims depend on. -/
structure Threat where
  priority : Priority
  min_km : ℚ
  risk_level : RiskLevel
deriving DecidableEq, Repr

/-- The sort key order used by
`threats.sort(key=lambda x: (priority_order.get(x["priority"], 3), x.get("min_km", 9999)))`:
lexicographic on `(rank, min_km)`. -/
def threatOrder (a b : Threat) : Prop :=
  priority_rank a.priority < priority_rank b.priority ∨
    (priority_rank a.priority = priority_rank b.priority ∧ a.min_km ≤ b.min_km)

instance : DecidableRel threatOrder := fun a b => by
  unfold threatOrder; infer_instance

instance : IsTotal Threat threatOrder := by
  constructor
  intro a b
  unfold threatOrder
  rcases lt_trichotomy (priority_rank a.priority) (priority_rank b.priority) with h | h | h
  · exact Or.inl (Or.inl h)
  · rcases le_total a.min_km b.min_km with h2 | h2
    · exact Or.inl (Or.inr ⟨h, h2⟩)
    · exact Or.inr (Or.inr ⟨h.symm, h2⟩)
  · exact Or.inr (Or.inl h)

instance : IsTrans Threat threatOrder := by
  constructor
  intro a b c hab hbc
  unfold threatOrder at *
  rcases hab with h1 | ⟨h1, h1'⟩ <;> rcases hbc with h2 | ⟨h2, h2'⟩
  · exact Or.inl (h1.trans h2)
  · exact Or.inl (h2 ▸ h1)
  · exact Or.inl (h1 ▸ h2)
  · exact Or.inr ⟨h1.trans h2, h1'.trans h2'⟩

/-- The Python stable sort by `(priority_rank, min_km)`, modelled as a sort
with respect to `threatOrder`. -/
def sortThreats (l : List Threat) : List Threat :=
  l.insertionSort threatOrder

/-- `t.get("risk_level") in ("RED", "YELLOW")`. -/
def isRY (t : Threat) : Bool :=
  t.risk_level == .RED || t.risk_level == .YELLOW

/-- The `for idx, t in enumerate(threats): if ...: top_idx = idx; break`
loop: index of the first RED/YELLOW threat, if any. -/
def firstRYIdx : List Threat → Option ℕ
  | [] => none
  | t :: rest => if isRY t then some 0 else (firstRYIdx rest).map (· + 1)

/-- `top_idx` after the fallback `if top_idx is None: top_idx = 0`. -/
def topThreatIdx (sorted : List Threat) : ℕ :=
  (firstRYIdx sorted).getD 0

/-- Placeholder threat for total list indexing. -/
def dummyThreat : Threat :=
  { priority := .CATALOG, min_km := 0, risk_level := .GREEN }

/-- `top_threat = threats[top_idx]` computed on the sorted threat list. -/
def topThreatOf (l : List Threat) : Threat :=
  (sortThreats l).getD (topThreatIdx (sortThreats l)) dummyThreat

instance {ε α : Type} [DecidableEq ε] [DecidableEq α] : DecidableEq (Except ε α) :=
  fun a b =>
    match a, b with
    | .error e, .error f =>
      if h : e = f then .isTrue (h ▸ rfl) else .isFalse (fun hc => h (by cases hc; rfl))
    | .error _, .ok _ => .isFalse (fun hc => by cases hc)
    | .ok _, .error _ => .isFalse (fun hc => by cases hc)
    | .ok v, .ok w =>
      if h : v = w then .isTrue (h ▸ rfl) else .isFalse (fun hc => h (by cases hc; rfl))

/-! ## Concrete example inputs used by counterexamples and witnesses -/

/-- A primary line-2 with mean motion 99 revs/day and inclination 0: its
semi-major axis is ≈ 1974 km, so its whole margined altitude band lies
below -150 km. -/
def exC10PrimL2 : String :=
  "2 00001   0.0000   0.0000 0000000 130.5360 325.0288 99.00000000000100"

/-- Companion line-1 (unused by `_parse_orbit_params`). -/
def exC10PrimL1 : String :=
  "1 00001U 24001A   24001.00000000  .00000000  00000-0  00000-0 0  9990"

/-- The argument `mu / n^2` of the cube root for `exC10PrimL2`. -/
def exC10AArg : ℚ := mu_earth / (99 * 2 * np_pi / 86400) ^ 2

/-- Orbit parameters of a syntactically broken catalog TLE — the fallback. -/
def exFallbackParams : ℚ × ℚ × ℚ × ℚ := parse_orbit_params cbrtQ "1 GARBAGE" "2 GARBAGE"

/-- A catalog entry built, as `refresh_if_needed` would, from a TLE whose
numeric fields fail to parse. -/
def exFallbackEntry : CatEntry :=
  { name := "FALLBACK", l1 := "1 GARBAGE", l2 := "2 GARBAGE"
    perigee_km := exFallbackParams.1, apogee_km := exFallbackParams.2.1
    inc_deg := exFallbackParams.2.2.1, raan_deg := exFallbackParams.2.2.2 }

/-- A well-formed LEO line-2 for NORAD 43000 (inclination 51.64°, mean
motion 15.5 revs/day, eccentricity 0.0006703). -/
def exC2L2 : String :=
  "2 43000  51.6400 247.4627 0006703 130.5360 325.0288 15.50000000000100"

/-- Companion line-1 for NORAD 43000. -/
def exC2L1 : String :=
  "1 43000U 18001A   24001.00000000  .00000000  00000-0  00000-0 0  9990"

/-- Cached orbit parameters for NORAD 43000, as the catalog computes them. -/
def exC2Params : ℚ × ℚ × ℚ × ℚ := parse_orbit_params cbrtQ exC2L1 exC2L2

/-- The catalog entry for NORAD 43000. -/
def exC2Entry : CatEntry :=
  { name := "TESTSAT", l1 := exC2L1, l2 := exC2L2
    perigee_km := exC2Params.1, apogee_km := exC2Params.2.1
    inc_deg := exC2Params.2.2.1, raan_deg := exC2Params.2.2.2 }

/-- A catalog snapshot that contains (only) the primary itself. -/
def exC2State : CatalogState :=
  { tles := [(43000, exC2Entry)], sats := [43000], last_refresh := 0 }

/-- Upload content with two-or-more non-blank lines and no valid TLE. -/
def exC3Content : String := "alpha\nbeta\ngamma"

/-- A submission request that passes every synchronous check of
`screen_fleet` while its content contains no valid TLE. -/
def exC3Request : SubmitRequest :=
  { engine_loaded := true
    auth_header := some "Bearer stx-authorized-user"
    file := some { filename := "sats.tle", content := exC3Content }
    suppress_green_field := "false"
    catalog_limit_field := "5000" }

/-- Two all-GREEN threats: a far MANNED one and a close CATALOG one. -/
def exC4Threats : List Threat :=
  [{ priority := .CATALOG, min_km := 5, risk_level := .GREEN },
   { priority := .MANNED, min_km := 100, risk_level := .GREEN }]

/-- A small mixed threat list for the sorting witness. -/
def exC8Threats : List Threat :=
  [{ priority := .CATALOG, min_km := 3, risk_level := .YELLOW },
   { priority := .MANNED, min_km := 40, risk_level := .GREEN },
   { priority := .CATALOG, min_km := 1, risk_level := .RED }]

/-!
## Theorems

Each specification property (C1-C10) is settled below; witness theorems
instantiate hypotheses at concrete inputs.
-/

/-- C1: for every miss distance, collision probability and operational
profile, the risk classifier returns RED iff `miss < red_km ∨ pc > red_pc`,
YELLOW iff it is not RED and `miss < yellow_km ∨ pc > yellow_pc`, GREEN
otherwise; hence GREEN implies all four threshold bounds. -/
theorem c1_assess_risk_level_spec (m p : ℚ) (P : OperationalProfile) :
    (assess_risk_level m p P = .RED ↔ (m < P.red_threshold_km ∨ p > P.red_pc))
    ∧ (assess_risk_level m p P = .YELLOW ↔
        (¬(m < P.red_threshold_km ∨ p > P.red_pc) ∧
          (m < P.yellow_threshold_km ∨ p > P.yellow_pc)))
    ∧ (assess_risk_level m p P = .GREEN ↔
        (¬(m < P.red_threshold_km ∨ p > P.red_pc) ∧
          ¬(m < P.yellow_threshold_km ∨ p > P.yellow_pc)))
    ∧ (assess_risk_level m p P = .GREEN →
        P.yellow_threshold_km ≤ m ∧ p ≤ P.yellow_pc ∧
          P.red_threshold_km ≤ m ∧ p ≤ P.red_pc) := by
  unfold assess_risk_level
  split_ifs with h1 h2
  · refine ⟨iff_of_true rfl h1, iff_of_false (by decide) ?_, iff_of_false (by decide) ?_, ?_⟩
    · exact fun hc => hc.1 h1
    · exact fun hc => hc.1 h1
    · exact fun hG => absurd hG (by decide)
  · refine ⟨iff_of_false (by decide) h1, iff_of_true rfl ⟨h1, h2⟩,
      iff_of_false (by decide) ?_, ?_⟩
    · exact fun hc => hc.2 h2
    · exact fun hG => absurd hG (by decide)
  · refine ⟨iff_of_false (by decide) h1, iff_of_false (by decide) ?_,
      iff_of_true rfl ⟨h1, h2⟩, ?_⟩
    · exact fun hc => h2 hc.2
    · intro _
      have h1' := not_or.mp h1
      have h2' := not_or.mp h2
      exact ⟨not_lt.mp h2'.1, not_lt.mp h2'.2, not_lt.mp h1'.1, not_lt.mp h1'.2⟩

/-- Witness for C1: a GREEN classification at miss 100 km, Pc 0 under the
COMMERCIAL profile yields all four threshold bounds. -/
theorem c1_witness :
    COMMERCIAL.yellow_threshold_km ≤ 100 ∧ (0 : ℚ) ≤ COMMERCIAL.yellow_pc ∧
      COMMERCIAL.red_threshold_km ≤ 100 ∧ (0 : ℚ) ≤ COMMERCIAL.red_pc :=
  (c1_assess_risk_level_spec 100 0 COMMERCIAL).2.2.2 (by decide)

/-- C6: `calculate_pc` returns 0 whenever the combined sigma is
non-positive (that test precedes the hard-body test), 1 when sigma is
positive and the miss is inside the 0.020 km hard-body radius, and the
clamped Gaussian expression otherwise; the result always lies in [0, 1]
(granted that the exponential is non-negative). -/
theorem c6_calculate_pc_spec (expF : ℚ → ℚ) (hexp : ∀ x, 0 ≤ expF x) (m s : ℚ) :
    (s ≤ 0 → calculate_pc expF m s = 0)
    ∧ (0 < s → m < combined_radius_km → calculate_pc expF m s = 1)
    ∧ (0 < s → ¬ m < combined_radius_km →
        calculate_pc expF m s =
          min (expF (-(1 / 2) * (m / s) ^ 2) * (combined_radius_km / s) ^ 2) 1)
    ∧ 0 ≤ calculate_pc expF m s ∧ calculate_pc expF m s ≤ 1 := by
  unfold calculate_pc
  split_ifs with h1 h2
  · exact ⟨fun _ => rfl, fun hs => absurd h1 (not_le.2 hs), fun hs => absurd h1 (not_le.2 hs),
      le_refl 0, zero_le_one⟩
  · exact ⟨fun hs => absurd hs h1, fun _ _ => rfl, fun _ hm => absurd h2 hm,
      zero_le_one, le_refl 1⟩
  · refine ⟨fun hs => absurd hs h1, fun _ hm => absurd hm h2, fun _ _ => rfl, ?_, min_le_right _ _⟩
    exact le_min (mul_nonneg (hexp _) (sq_nonneg _)) zero_le_one

/-- Witness for C6: with the constant-one exponential, a miss of 5 km at
sigma -1 km yields Pc 0 (the sigma test fires first). -/
theorem c6_witness : calculate_pc (fun _ => 1) 5 (-1) = 0 :=
  (c6_calculate_pc_spec (fun _ => 1) (fun _ => zero_le_one) 5 (-1)).1 (by norm_num)

/-- C7 counterexample: at radial offset 0.0001 km the returned
`fuel_cost_kg` is `round(999.99 * 0.001, 4) = 1.0`, which differs from
`delta_v_ms * 0.001 = 0.99999`, refuting the claimed exact relation
`fuel_cost_kg = delta_v_ms * 0.001`. -/
theorem c7_counterexample :
    (calculate_delta_v (1 / 2) (1 / 10000) 0 0 0).delta_v_ms = 99999 / 100
    ∧ (calculate_delta_v (1 / 2) (1 / 10000) 0 0 0).fuel_cost_kg = 1
    ∧ (calculate_delta_v (1 / 2) (1 / 10000) 0 0 0).fuel_cost_kg ≠
        (calculate_delta_v (1 / 2) (1 / 10000) 0 0 0).delta_v_ms * (1 / 1000) := by
  refine ⟨by decide, by decide, by decide⟩

/-- C7 (amended): for `|radial| < 1` the planner returns
`delta_v_ms = round((10 - |radial|) * 100, 2)` m/s, RADIAL+ exactly when
`radial < 0` and RADIAL- otherwise, execution 1.5 h before TCA with the
window `[TCA - 2 h, TCA - 1 h]`, a post-maneuver miss of exactly 10 km,
and `fuel_cost_kg = round((10 - |radial|) * 100 * 0.001, 4)` (computed
from the unrounded delta-v); for `|radial| ≥ 1` it returns 50 m/s,
IN-TRACK, a 0.5 h lead and `post = round(1.5 * miss, 3)`. -/
theorem c7_calculate_delta_v_spec (miss radial it ct tca : ℚ) :
    (|radial| < 1 →
      calculate_delta_v miss radial it ct tca =
        { delta_v_ms := pyRound ((10 - |radial|) * 100) 2
          burn_type := if radial < 0 then .RADIAL_PLUS else .RADIAL_MINUS
          execution_time := tca - 3 / 2 * 3600
          window_start := tca - 2 * 3600
          window_end := tca - 3600
          post_maneuver_miss_km := 10
          fuel_cost_kg := pyRound ((10 - |radial|) * 100 * (1 / 1000)) 4 })
    ∧ (¬ |radial| < 1 →
      calculate_delta_v miss radial it ct tca =
        { delta_v_ms := 50
          burn_type := .IN_TRACK
          execution_time := tca - 1800
          window_start := tca - 3600
          window_end := tca
          post_maneuver_miss_km := pyRound (miss * (3 / 2)) 3
          fuel_cost_kg := 1 / 20 }) := by
  constructor
  · intro h
    have habs : abs (max (5 : ℚ) 10 - abs radial) = 10 - abs radial := by
      rw [max_eq_right (by norm_num : (5 : ℚ) ≤ 10)]
      exact abs_of_nonneg (by linarith [abs_nonneg radial])
    have hpost : abs radial + (max (5 : ℚ) 10 - abs radial) = 10 := by
      rw [max_eq_right (by norm_num : (5 : ℚ) ≤ 10)]
      ring
    simp only [calculate_delta_v, if_pos h, Maneuver.mk.injEq]
    rw [habs, hpost]
    repeat' apply And.intro
    all_goals first
      | rfl
      | trivial
      | decide
      | ring
  · intro h
    simp only [calculate_delta_v, if_neg h, Maneuver.mk.injEq]
    repeat' apply And.intro
    all_goals first
      | rfl
      | trivial
      | decide
      | ring

/-- Witness for C7 (amended): the in-plane branch evaluated at
radial 0.5 km, TCA 10000 s. -/
theorem c7_witness :
    calculate_delta_v 3 (1 / 2) 0 0 10000 =
      { delta_v_ms := pyRound ((10 - |(1 / 2 : ℚ)|) * 100) 2
        burn_type := if (1 / 2 : ℚ) < 0 then .RADIAL_PLUS else .RADIAL_MINUS
        execution_time := 10000 - 3 / 2 * 3600
        window_start := 10000 - 2 * 3600
        window_end := 10000 - 3600
        post_maneuver_miss_km := 10
        fuel_cost_kg := pyRound ((10 - |(1 / 2 : ℚ)|) * 100 * (1 / 1000)) 4 } :=
  (c7_calculate_delta_v_spec 3 (1 / 2) 0 0 10000).1 (by decide)

/-- C5: a failed catalog refresh — the upstream fetch raising, or
returning an empty result — leaves the whole service state (the `tles`
map, the `sats` map and `last_refresh`) exactly as it was. -/
theorem c5_refresh_failure_preserves_state (cbrtF : ℚ → ℚ)
    (satOk : String → String → Bool) (st : CatalogState) (hasClient : Bool)
    (now : ℚ) (force : Bool) (fetch : Except Unit String)
    (hfail : fetch = .error () ∨ fetch = .ok "") :
    refresh_if_needed cbrtF satOk st hasClient now force fetch = st := by
  unfold refresh_if_needed
  rcases hfail with h | h <;> subst h <;> split_ifs <;> simp

/-- Witness for C5: a raises-on-fetch refresh over a one-entry snapshot
returns the snapshot unchanged. -/
theorem c5_witness :
    refresh_if_needed cbrtQ (fun _ _ => true)
        { tles := [(25544, { name := "ISS", l1 := "1 25544", l2 := "2 25544"
                             perigee_km := 410, apogee_km := 420
                             inc_deg := 516 / 10, raan_deg := 0 })]
          sats := [25544], last_refresh := 0 }
        true 99999 true (.error ()) =
      { tles := [(25544, { name := "ISS", l1 := "1 25544", l2 := "2 25544"
                           perigee_km := 410, apogee_km := 420
                           inc_deg := 516 / 10, raan_deg := 0 })]
        sats := [25544], last_refresh := 0 } :=
  c5_refresh_failure_preserves_state cbrtQ (fun _ _ => true) _ true 99999 true
    (.error ()) (Or.inl rfl)

/-! ### Helper lemmas (shared) -/

/-- A successfully parsed unsigned decimal is non-negative. -/
theorem parseUnsigned_nonneg (cs : List Char) (q : ℚ) (h : parseUnsigned cs = some q) :
    0 ≤ q := by
  simp only [parseUnsigned] at h
  split at h
  · split_ifs at h
    injection h with h'
    subst h'
    exact Nat.cast_nonneg _
  · split_ifs at h
    injection h with h'
    subst h'
    positivity
  · exact Option.noConfusion h

/-- The bisection keeps non-negative bounds. -/
theorem cbrtAux_nonneg (x : ℚ) (k : ℕ) (lo hi : ℚ) (hlo : 0 ≤ lo) (hhi : 0 ≤ hi) :
    0 ≤ cbrtAux x k lo hi := by
  induction k generalizing lo hi with
  | zero => simpa [cbrtAux] using hlo
  | succ k ih =>
    simp only [cbrtAux]
    split_ifs with h
    · exact ih _ _ (by positivity) hhi
    · exact ih _ _ hlo (by positivity)

/-- `cbrtQ` is non-negative on non-negative input. -/
theorem cbrtQ_nonneg : ∀ x : ℚ, 0 ≤ x → 0 ≤ cbrtQ x := by
  intro x _
  unfold cbrtQ
  split_ifs with h
  · exact le_refl 0
  · exact cbrtAux_nonneg x 64 0 (max 1 x) (le_refl 0)
      (le_trans zero_le_one (le_max_left 1 x))

/-- `threatOrder` is reflexive. -/
theorem threatOrder_refl (t : Threat) : threatOrder t t :=
  Or.inr ⟨rfl, le_refl _⟩

/-- Index semantics of the first-RED/YELLOW loop. -/
theorem firstRYIdx_some_spec (l : List Threat) (i : ℕ) (h : firstRYIdx l = some i) :
    i < l.length ∧ isRY (l.getD i dummyThreat) = true ∧
      ∀ k, k < i → isRY (l.getD k dummyThreat) = false := by
  induction l generalizing i with
  | nil => exact Option.noConfusion h
  | cons a rest ih =>
    unfold firstRYIdx at h
    by_cases ha : isRY a = true
    · rw [if_pos ha] at h
      injection h with h'
      subst h'
      exact ⟨Nat.succ_pos _, by simpa using ha, fun k hk => absurd hk (Nat.not_lt_zero k)⟩
    · rw [if_neg ha] at h
      cases hrest : firstRYIdx rest with
      | none => rw [hrest] at h; exact Option.noConfusion h
      | some m =>
        rw [hrest] at h
        injection h with h'
        subst h'
        obtain ⟨hlen, hm, hbefore⟩ := ih m hrest
        refine ⟨Nat.succ_lt_succ hlen, by simpa using hm, ?_⟩
        intro k hk
        cases k with
        | zero => simpa using Bool.of_not_eq_true ha
        | succ k' => simpa using hbefore k' (Nat.lt_of_succ_lt_succ hk)

/-- If no element is RED/YELLOW, the loop finds nothing. -/
theorem firstRYIdx_eq_none (l : List Threat) (h : ∀ t ∈ l, isRY t = false) :
    firstRYIdx l = none := by
  induction l with
  | nil => rfl
  | cons a rest ih =>
    unfold firstRYIdx
    rw [if_neg (by simp [h a (List.mem_cons_self a rest)])]
    rw [ih (fun t ht => h t (List.mem_cons_of_mem a ht))]
    rfl

/-! ### C10 -/

/-- C10 counterexample: a fallback-parameter entry (shell [0, 50000] km,
inclination 0°) is EXCLUDED by the Stage-1 altitude-overlap test against a
parseable primary with mean motion 99 revs/day and inclination 0° — whose
margined band lies entirely below -150 km — although the inclination is
within the 30° margin.  The final three conjuncts bracket the bisection
cube root within 1 km of the exact cube root and bound it away from the
deciding threshold by ≈ 4250 km, so the exclusion is robust to the
floating-point/rational modelling gap. -/
theorem c10_counterexample :
    parse_orbit_params cbrtQ "1 GARBAGE" "2 GARBAGE" = (0, 50000, 0, 0)
    ∧ exFallbackEntry.perigee_km = 0 ∧ exFallbackEntry.apogee_km = 50000
    ∧ exFallbackEntry.inc_deg = 0
    ∧ (parse_orbit_params cbrtQ exC10PrimL1 exC10PrimL2).2.2.1 = 0
    ∧ get_stage1_candidates cbrtQ [(99999, exFallbackEntry)]
        ("X", exC10PrimL1, exC10PrimL2) 150 30 = []
    ∧ cbrtQ exC10AArg ^ 3 ≤ exC10AArg
    ∧ exC10AArg < (cbrtQ exC10AArg + 1) ^ 3
    ∧ cbrtQ exC10AArg + 1 < 6228 :=
  ⟨by decide, by decide, by decide, by decide, by decide, by decide, by decide,
    by decide, by decide⟩

/-- C10 (amended): (1) if any numeric field of a TLE fails to parse,
`_parse_orbit_params` returns the fallback `(0, 50000, 0, 0)`; (2) a
fallback-parameter catalog entry passes Stage 1 against a primary iff the
primary's margined band meets `[0, 50000]` — `apogee ≥ -150` and
`perigee ≤ 50150` (true whenever the primary itself falls back, but not
for every parseable primary) — and the primary's inclination is within 30°
of 0°; (3) in every case, fallback or not, `perigee_km ≤ apogee_km`. -/
theorem c10_parse_fallback_spec :
    (∀ (cbrtF : ℚ → ℚ) (l1 l2 : String),
      (parseFloatQ (stripStr (sliceStr l2 52 63)) = none
        ∨ parseUnsigned ('0' :: '.' :: (stripStr (sliceStr l2 26 33)).data) = none
        ∨ parseFloatQ (stripStr (sliceStr l2 8 16)) = none
        ∨ parseFloatQ (stripStr (sliceStr l2 17 25)) = none) →
      parse_orbit_params cbrtF l1 l2 = (0, 50000, 0, 0))
    ∧ (∀ (cbrtF : ℚ → ℚ) (n : ℕ) (e : CatEntry) (p : String × String × String),
      e.perigee_km = 0 → e.apogee_km = 50000 → e.inc_deg = 0 →
      (n ∈ get_stage1_candidates cbrtF [(n, e)] p 150 30 ↔
        (-150 ≤ (parse_orbit_params cbrtF p.2.1 p.2.2).2.1
          ∧ (parse_orbit_params cbrtF p.2.1 p.2.2).1 ≤ 50150
          ∧ |0 - (parse_orbit_params cbrtF p.2.1 p.2.2).2.2.1| ≤ 30)))
    ∧ (∀ cbrtF : ℚ → ℚ, (∀ x, 0 ≤ x → 0 ≤ cbrtF x) → ∀ l1 l2 : String,
      (parse_orbit_params cbrtF l1 l2).1 ≤ (parse_orbit_params cbrtF l1 l2).2.1) := by
  refine ⟨?_, ?_, ?_⟩
  · intro cbrtF l1 l2 hfail
    unfold parse_orbit_params
    cases hmm : parseFloatQ (stripStr (sliceStr l2 52 63)) with
    | none => simp [hmm]
    | some mm =>
      cases hecc : parseUnsigned ('0' :: '.' :: (stripStr (sliceStr l2 26 33)).data) with
      | none => simp [hmm, hecc]
      | some ecc =>
        cases hinc : parseFloatQ (stripStr (sliceStr l2 8 16)) with
        | none => simp [hmm, hecc, hinc]
        | some inc =>
          cases hraan : parseFloatQ (stripStr (sliceStr l2 17 25)) with
          | none => simp [hmm, hecc, hinc, hraan]
          | some raan => rcases hfail with h | h | h | h <;> simp_all
  · intro cbrtF n e p hpe hap hinc
    unfold get_stage1_candidates
    rw [if_neg (by simp : ¬([(n, e)] : List (ℕ × CatEntry)) = [])]
    rw [List.filter_cons, List.filter_nil]
    have key : (!decide (e.perigee_km > (parse_orbit_params cbrtF p.2.1 p.2.2).2.1 + 150) &&
        !decide (e.apogee_km < (parse_orbit_params cbrtF p.2.1 p.2.2).1 - 150) &&
        !decide (|e.inc_deg - (parse_orbit_params cbrtF p.2.1 p.2.2).2.2.1| > 30)) = true ↔
        (-150 ≤ (parse_orbit_params cbrtF p.2.1 p.2.2).2.1
          ∧ (parse_orbit_params cbrtF p.2.1 p.2.2).1 ≤ 50150
          ∧ |0 - (parse_orbit_params cbrtF p.2.1 p.2.2).2.2.1| ≤ 30) := by
      rw [hpe, hap, hinc]
      simp only [Bool.and_eq_true, Bool.not_eq_true', decide_eq_false_iff_not, not_lt]
      constructor
      · rintro ⟨⟨h1, h2⟩, h3⟩
        exact ⟨by linarith, by linarith, h3⟩
      · rintro ⟨h1, h2, h3⟩
        exact ⟨⟨by linarith, by linarith⟩, h3⟩
    split_ifs with hf
    · simp only [List.map_cons, List.map_nil, List.mem_singleton]
      exact iff_of_true (by trivial) (key.mp hf)
    · simp only [List.map_nil, List.not_mem_nil, false_iff]
      exact fun hrhs => hf (key.mpr hrhs)
  · intro cbrtF hcb l1 l2
    unfold parse_orbit_params
    cases hmm : parseFloatQ (stripStr (sliceStr l2 52 63)) with
    | none => simp [hmm]
    | some mm =>
      cases hecc : parseUnsigned ('0' :: '.' :: (stripStr (sliceStr l2 26 33)).data) with
      | none => simp [hmm, hecc]
      | some ecc =>
        cases hinc : parseFloatQ (stripStr (sliceStr l2 8 16)) with
        | none => simp [hmm, hecc, hinc]
        | some inc =>
          cases hraan : parseFloatQ (stripStr (sliceStr l2 17 25)) with
          | none => simp [hmm, hecc, hinc, hraan]
          | some raan =>
            simp only [hmm, hecc, hinc, hraan, Option.bind_eq_bind, Option.some_bind]
            split_ifs with hn
            · simp
            · have he : 0 ≤ ecc := parseUnsigned_nonneg _ _ hecc
              have ha : 0 ≤ cbrtF (mu_earth / (mm * 2 * np_pi / 86400) ^ 2) := by
                apply hcb
                apply div_nonneg
                · norm_num [mu_earth]
                · positivity
              simp only [Option.getD_some]
              have : cbrtF (mu_earth / (mm * 2 * np_pi / 86400) ^ 2) * (1 - ecc) ≤
                  cbrtF (mu_earth / (mm * 2 * np_pi / 86400) ^ 2) * (1 + ecc) := by
                apply mul_le_mul_of_nonneg_left _ ha
                linarith
              linarith

/-- Witness for C10 (amended): part (3) applied to `cbrtQ` at the broken
TLE. -/
theorem c10_witness :
    (parse_orbit_params cbrtQ "1 GARBAGE" "2 GARBAGE").1 ≤
      (parse_orbit_params cbrtQ "1 GARBAGE" "2 GARBAGE").2.1 :=
  c10_parse_fallback_spec.2.2 cbrtQ cbrtQ_nonneg "1 GARBAGE" "2 GARBAGE"

/-! ### C2 -/

/-- C2 (code evaluation): with the primary's own TLE in the catalog
snapshot, the candidate pipeline returns the primary itself — no step
removes the primary's NORAD id (the `primary_norad` parameter is accepted
but never used).  The `dmin` oracle is 0 km because the candidate and
primary are the same object; `satOk` is true because the TLE is
well-formed. -/
theorem c2_self_in_candidates :
    parseNorad exC2L2 = some 43000
    ∧ (get_catalog_candidates_for_primary cbrtQ (fun _ _ => true) (fun _ => some 0)
        (some exC2State) 0 (.ok "") ("TESTSAT", exC2L1, exC2L2) (some 43000)
        7 300 80 150 30).map Candidate.norad_id = [43000] :=
  ⟨by decide, by decide⟩

/-! ### C3 -/

/-- C3 counterexample: a request whose content strips to three junk lines
(zero valid TLEs) passes every synchronous check of `screen_fleet` and is
queued — it is not answered with a 4xx client error. -/
theorem c3_counterexample :
    ¬(∀ (now : ℚ) (req : SubmitRequest) (f : SubmitFile),
        req.file = some f →
        parseTLEFile (stripStr f.content) = .error "No valid TLEs found" →
        ∃ code msg, screen_fleet now req = .clientError code msg) := by
  intro hclaim
  obtain ⟨code, msg, hcm⟩ :=
    hclaim 0 exC3Request { filename := "sats.tle", content := exC3Content } rfl (by decide)
  rw [show screen_fleet 0 exC3Request =
      .queued (create_job 0) (stripStr exC3Content) false 5000 from by decide] at hcm
  exact SubmitOutcome.noConfusion hcm

/-- C3 (amended): a submission that passes the synchronous checks (auth,
file present, non-empty name with .tle/.txt extension, parseable
catalog_limit, non-empty stripped content) is queued even when its content
contains zero valid TLEs; the zero-TLE condition surfaces asynchronously —
the worker's parse raises and the job transitions to `failed`. -/
theorem c3_zero_tle_async_failure (now : ℚ) (req : SubmitRequest) (f : SubmitFile)
    (screenO : List TLERec → ScreenPayload) (e : String) (k : ℤ)
    (hengine : req.engine_loaded = true)
    (hauth : req.auth_header = some "Bearer stx-authorized-user")
    (hfile : req.file = some f)
    (hname : f.filename ≠ "")
    (hext : (endsWithStr ".tle" (lowerStr f.filename)
      || endsWithStr ".txt" (lowerStr f.filename)) = true)
    (hcl : parseIntPy req.catalog_limit_field = some k)
    (hcontent : stripStr f.content ≠ "")
    (hparse : parseTLEFile (stripStr f.content) = .error e) :
    screen_fleet now req =
      .queued (create_job now) (stripStr f.content)
        (lowerStr req.suppress_green_field == "true") k
    ∧ (create_job now).status = .queued
    ∧ (run_screen_job screenO (stripStr f.content) (create_job now)).status = .failed := by
  refine ⟨?_, rfl, ?_⟩
  · unfold screen_fleet
    rw [hengine, hfile, hcl]
    simp [hauth, hname, hext, hcontent]
  · unfold run_screen_job perform_screening_outcome
    rw [hparse]
    rfl

/-- Witness for C3 (amended): the junk three-line upload is queued and its
job run ends `failed`. -/
theorem c3_witness :
    screen_fleet 0 exC3Request =
      .queued (create_job 0) (stripStr exC3Content)
        (lowerStr exC3Request.suppress_green_field == "true") 5000
    ∧ (create_job 0).status = .queued
    ∧ (run_screen_job (fun _ => { payload_status := .success }) (stripStr exC3Content)
        (create_job 0)).status = .failed :=
  c3_zero_tle_async_failure 0 exC3Request { filename := "sats.tle", content := exC3Content }
    (fun _ => { payload_status := .success }) "No valid TLEs found" 5000
    rfl rfl rfl (by decide) (by decide) (by decide) (by decide) (by decide)

/-! ### C9 -/

/-- C9: from a queued job, the worker's transition sequence
(`set_job_running`, then exactly one of `set_job_result` /
`set_job_failed`) visits statuses queued → running → terminal with
strictly increasing progress rank; the single terminal-setting operation
is the last one the worker performs, so after a terminal status is reached
no worker transition remains to change the job's status, result or error. -/
theorem c9_job_lifecycle (screenO : List TLERec → ScreenPayload) (content : String)
    (j : Job) (hq : j.status = .queued) :
    ((run_screen_job_states screenO content j).map Job.status
      = [.queued, .running, (run_screen_job screenO content j).status])
    ∧ IsTerminal (run_screen_job screenO content j).status
    ∧ List.Chain' (fun a b : JobStatus => statusRank a < statusRank b)
        ((run_screen_job_states screenO content j).map Job.status)
    ∧ (∃ op, run_screen_job_ops screenO content = [JobOp.opRunning, op]
        ∧ ∀ j' : Job, IsTerminal (applyOp op j').status)
    ∧ (∀ i, i + 1 < (run_screen_job_states screenO content j).length →
        ¬IsTerminal (((run_screen_job_states screenO content j).map Job.status).getD
          i .queued)) := by
  have hstates : run_screen_job_states screenO content j =
      [j, set_job_running j, run_screen_job screenO content j] := by
    cases hout : perform_screening_outcome screenO content <;>
      simp [run_screen_job_states, run_screen_job_ops, run_screen_job, hout, applyOp,
        List.getLastD]
  have hterm : IsTerminal (run_screen_job screenO content j).status := by
    cases hout : perform_screening_outcome screenO content with
    | error e => simp [run_screen_job, hout, set_job_failed, IsTerminal]
    | ok r =>
      cases hps : r.payload_status <;>
        simp [run_screen_job, hout, set_job_result, PayloadStatus.toJobStatus, IsTerminal, hps]
  refine ⟨?_, hterm, ?_, ?_, ?_⟩
  · rw [hstates]
    simp [hq, set_job_running]
  · rw [hstates]
    rcases hterm with h | h | h <;>
      simp [List.chain'_cons, hq, set_job_running, statusRank, h]
  · cases hout : perform_screening_outcome screenO content with
    | ok r =>
      refine ⟨.opResult r.payload_status.toJobStatus r, by simp [run_screen_job_ops, hout], ?_⟩
      intro j'
      cases hps : r.payload_status <;>
        simp [applyOp, set_job_result, PayloadStatus.toJobStatus, IsTerminal, hps]
    | error e =>
      exact ⟨.opFailed e, by simp [run_screen_job_ops, hout],
        fun j' => by simp [applyOp, set_job_failed, IsTerminal]⟩
  · intro i hi
    rw [hstates] at hi ⊢
    simp only [List.length_cons, List.length_nil] at hi
    match i, hi with
    | 0, _ => simp [hq, IsTerminal]
    | 1, _ => simp [set_job_running, IsTerminal]

/-- Witness for C9: a fresh queued job run on a successful screening ends
in a terminal status. -/
theorem c9_witness :
    IsTerminal (run_screen_job (fun _ => { payload_status := PayloadStatus.success }) "x"
      (create_job 0)).status :=
  (c9_job_lifecycle (fun _ => { payload_status := PayloadStatus.success }) "x"
    (create_job 0) rfl).2.1

/-! ### C8 -/

/-- C8: in the sorted threat list, any earlier position has strictly
smaller priority rank, or equal rank and a min-distance no larger —
`MANNED = 0 < HIGH-RISK = 1 < CATALOG = 2`. -/
theorem c8_sorted_threats_invariant (l : List Threat)
    (i j : Fin (sortThreats l).length) (hij : i < j) :
    priority_rank ((sortThreats l).get i).priority <
        priority_rank ((sortThreats l).get j).priority
    ∨ (priority_rank ((sortThreats l).get i).priority =
          priority_rank ((sortThreats l).get j).priority
        ∧ ((sortThreats l).get i).min_km ≤ ((sortThreats l).get j).min_km) := by
  have hs : List.Sorted threatOrder (sortThreats l) :=
    List.sorted_insertionSort threatOrder l
  exact hs.rel_get_of_lt hij

/-- Witness for C8: positions 0 and 1 of a sorted three-threat list. -/
theorem c8_witness :
    priority_rank ((sortThreats exC8Threats).get ⟨0, by decide⟩).priority <
        priority_rank ((sortThreats exC8Threats).get ⟨1, by decide⟩).priority
    ∨ (priority_rank ((sortThreats exC8Threats).get ⟨0, by decide⟩).priority =
          priority_rank ((sortThreats exC8Threats).get ⟨1, by decide⟩).priority
        ∧ ((sortThreats exC8Threats).get ⟨0, by decide⟩).min_km ≤
            ((sortThreats exC8Threats).get ⟨1, by decide⟩).min_km) :=
  c8_sorted_threats_invariant exC8Threats ⟨0, by decide⟩ ⟨1, by decide⟩ (by decide)

/-! ### C4 -/

/-- C4 counterexample: with two all-GREEN threats — a MANNED one at 100 km
and a CATALOG one at 5 km — the fallback top threat is the MANNED entry at
100 km (head of the priority-sorted list), not the globally closest
threat. -/
theorem c4_counterexample :
    ¬(∀ l : List Threat, l ≠ [] → (∀ t ∈ l, isRY t = false) →
        ∀ t ∈ l, (topThreatOf l).min_km ≤ t.min_km) := by
  intro hclaim
  have h := hclaim exC4Threats (by decide) (by decide)
    { priority := .CATALOG, min_km := 5, risk_level := .GREEN } (by decide)
  revert h
  decide

/-- C4 (amended): the top threat is the entry of the priority-sorted
threat list at the first RED/YELLOW position when one exists; when the
non-empty list has no RED/YELLOW entry, the fallback is position 0 of the
sorted list — the closest threat within the best priority rank present
(which is `(rank, min_km)`-minimal over all threats, but not in general
the globally closest). -/
theorem c4_top_threat_spec (l : List Threat) (hne : l ≠ []) :
    (∀ i, firstRYIdx (sortThreats l) = some i →
      topThreatOf l = (sortThreats l).getD i dummyThreat
      ∧ isRY ((sortThreats l).getD i dummyThreat) = true
      ∧ ∀ k, k < i → isRY ((sortThreats l).getD k dummyThreat) = false)
    ∧ ((∀ t ∈ l, isRY t = false) →
      topThreatOf l = (sortThreats l).getD 0 dummyThreat
      ∧ ∀ t ∈ l, threatOrder (topThreatOf l) t) := by
  have hperm : (sortThreats l).Perm l := List.perm_insertionSort threatOrder l
  constructor
  · intro i hi
    obtain ⟨hlen, hm, hbefore⟩ := firstRYIdx_some_spec _ _ hi
    refine ⟨?_, hm, hbefore⟩
    unfold topThreatOf topThreatIdx
    rw [hi]
    rfl
  · intro hnone
    have hnone' : ∀ t ∈ sortThreats l, isRY t = false := fun t ht =>
      hnone t (hperm.mem_iff.mp ht)
    have hidx : firstRYIdx (sortThreats l) = none := firstRYIdx_eq_none _ hnone'
    have htop : topThreatOf l = (sortThreats l).getD 0 dummyThreat := by
      unfold topThreatOf topThreatIdx
      rw [hidx]
      rfl
    refine ⟨htop, ?_⟩
    have hsne : sortThreats l ≠ [] := by
      intro hnil
      have hlen0 : l.length = 0 := by rw [← hperm.length_eq, hnil]; rfl
      exact hne (List.length_eq_zero.mp hlen0)
    obtain ⟨a, rest, hcons⟩ := List.exists_cons_of_ne_nil hsne
    have hs : List.Sorted threatOrder (sortThreats l) :=
      List.sorted_insertionSort threatOrder l
    intro t ht
    have ht' : t ∈ sortThreats l := hperm.mem_iff.mpr ht
    rw [htop, hcons]
    rw [hcons] at ht' hs
    simp only [List.getD_cons_zero]
    rcases List.mem_cons.mp ht' with h | h
    · exact h ▸ threatOrder_refl a
    · exact (List.sorted_cons.mp hs).1 t h

/-- Witness for C4 (amended): the all-GREEN two-threat example — the top
threat is the sorted head and `(rank, min_km)`-below every threat. -/
theorem c4_witness :
    topThreatOf exC4Threats = (sortThreats exC4Threats).getD 0 dummyThreat
    ∧ ∀ t ∈ exC4Threats, threatOrder (topThreatOf exC4Threats) t :=
  (c4_top_threat_spec exC4Threats (by decide)).2 (by decide)

end STX

end STXDevelopment
